import Mathlib

/-!
Shallow embedding of the `db` module of sainnhe/rust-common.

The embedding covers `src/db/mod.rs` (the database `Type` enumeration,
named `DbType` here because `Type` is reserved in Lean),
`src/db/stmt_builder.rs` (the dialect-aware statement builder) and
`src/db/sqlx.rs` (the dialect-agnostic builder, in namespace `Sqlx`).

Rust mutable-reference counters (`&mut i32`) are modelled by explicit
state passing: a function taking `begin_idx : Int` returns the produced
string together with the updated counter. Iterator `map` closures that
capture the mutable counter are modelled by `mapWithState`, which threads
the state through the list from left to right exactly as the Rust
iterator does.
-/

/-- Embedding of `db::Type` from `src/db/mod.rs`. -/
inductive DbType where
  | MySQL
  | PostgreSQL
  | SQLite
deriving DecidableEq

/-- Embedding of `KV` from `src/db/stmt_builder.rs`. -/
structure KV where
  key : String
  val : String
deriving DecidableEq

/-- Embedding of the `PLACEHOLDER` constant. -/
def PLACEHOLDER : String := "?"

/-- Embedding of the `PG_PLACEHOLDER_BEGIN_IDX` constant. -/
def PG_PLACEHOLDER_BEGIN_IDX : Int := 1

/-- Embedding of `StmtBuilder` from `src/db/stmt_builder.rs`. -/
structure StmtBuilder where
  tbl : String
  typ : DbType

/-- Embedding of `StmtBuilder::new`. -/
def StmtBuilder.new (tbl : String) (typ : DbType) : StmtBuilder :=
  { tbl := tbl, typ := typ }

/-- Embedding of `StmtBuilder::get_tbl`. -/
def StmtBuilder.get_tbl (sb : StmtBuilder) : String := sb.tbl

/-- Embedding of `StmtBuilder::get_typ`. -/
def StmtBuilder.get_typ (sb : StmtBuilder) : DbType := sb.typ

/-- Embedding of `StmtBuilder::escape_col`. -/
def StmtBuilder.escape_col (sb : StmtBuilder) (col : String) : String :=
  if col = "*" then col
  else
    match sb.typ with
    | DbType.MySQL => "`" ++ col ++ "`"
    | DbType.PostgreSQL | DbType.SQLite => "\"" ++ col ++ "\""

/-- Embedding of `StmtBuilder::convert_placeholder`. The Rust code does
`*begin_idx += 1; format!("${}", *begin_idx - 1)` in the placeholder case,
which is modelled literally. -/
def StmtBuilder.convert_placeholder (sb : StmtBuilder) (begin_idx : Int)
    (val : String) : String × Int :=
  match sb.typ with
  | DbType.MySQL | DbType.SQLite => (val, begin_idx)
  | DbType.PostgreSQL =>
      if val = PLACEHOLDER then
        ( "$" ++ toString (begin_idx + 1 - 1), begin_idx + 1)
      else
        (val, begin_idx)

/-- State-threading map, modelling a Rust iterator `map` whose closure
captures a `&mut` counter: elements are processed left to right and the
state is threaded through in that order. -/
def mapWithState {α β σ : Type} (f : σ → α → β × σ) : σ → List α → List β × σ
  | s, [] => ([], s)
  | s, a :: l =>
      ((f s a).1 :: (mapWithState f (f s a).2 l).1,
       (mapWithState f (f s a).2 l).2)

/-- Embedding of `StmtBuilder::build_conds`. -/
def StmtBuilder.build_conds (sb : StmtBuilder) (begin_idx : Int)
    (conds : List KV) : String × Int :=
  if conds.isEmpty then ( "", begin_idx)
  else
    ( " WHERE " ++ String.intercalate " AND "
        (mapWithState
          (fun i kv =>
            (kv.key ++ " = " ++ (sb.convert_placeholder i kv.val).1,
             (sb.convert_placeholder i kv.val).2))
          begin_idx conds).1,
      (mapWithState
        (fun i kv =>
          (kv.key ++ " = " ++ (sb.convert_placeholder i kv.val).1,
           (sb.convert_placeholder i kv.val).2))
        begin_idx conds).2)

/-- Embedding of `StmtBuilder::build_insert_stmt`. -/
def StmtBuilder.build_insert_stmt (sb : StmtBuilder) (cols : List KV) : String :=
  if cols.isEmpty then ""
  else
    "INSERT INTO " ++ sb.tbl ++ " (" ++
      String.intercalate ", "
        ((mapWithState
          (fun i kv =>
            ((sb.escape_col kv.key, (sb.convert_placeholder i kv.val).1),
             (sb.convert_placeholder i kv.val).2))
          PG_PLACEHOLDER_BEGIN_IDX cols).1.map Prod.fst) ++
      ") VALUES (" ++
      String.intercalate ", "
        ((mapWithState
          (fun i kv =>
            ((sb.escape_col kv.key, (sb.convert_placeholder i kv.val).1),
             (sb.convert_placeholder i kv.val).2))
          PG_PLACEHOLDER_BEGIN_IDX cols).1.map Prod.snd) ++
      ")"

/-- Embedding of `StmtBuilder::build_query_stmt`. -/
def StmtBuilder.build_query_stmt (sb : StmtBuilder) (cols : List String)
    (conds : List KV) : String :=
  "SELECT " ++
    (if cols.isEmpty then "*"
     else String.intercalate ", " (cols.map (fun col => sb.escape_col col))) ++
    " FROM " ++ sb.tbl ++
    (sb.build_conds PG_PLACEHOLDER_BEGIN_IDX conds).1

/-- Embedding of `StmtBuilder::build_update_stmt`. -/
def StmtBuilder.build_update_stmt (sb : StmtBuilder) (cols : List KV)
    (conds : List KV) : String :=
  if cols.isEmpty then ""
  else
    "UPDATE " ++ sb.tbl ++ " SET " ++
      String.intercalate ", "
        (mapWithState
          (fun i kv =>
            (sb.escape_col kv.key ++ " = " ++ (sb.convert_placeholder i kv.val).1,
             (sb.convert_placeholder i kv.val).2))
          PG_PLACEHOLDER_BEGIN_IDX cols).1 ++
      (sb.build_conds
        (mapWithState
          (fun i kv =>
            (sb.escape_col kv.key ++ " = " ++ (sb.convert_placeholder i kv.val).1,
             (sb.convert_placeholder i kv.val).2))
          PG_PLACEHOLDER_BEGIN_IDX cols).2 conds).1

/-- Embedding of `StmtBuilder::build_delete_stmt`. -/
def StmtBuilder.build_delete_stmt (sb : StmtBuilder) (conds : List KV) : String :=
  "DELETE FROM " ++ sb.tbl ++ (sb.build_conds PG_PLACEHOLDER_BEGIN_IDX conds).1

namespace Sqlx

/-- Embedding of `sqlx::KV` from `src/db/sqlx.rs`. -/
structure KV where
  key : String
  val : String
deriving DecidableEq

/-- Embedding of `sqlx::StmtBuilder` from `src/db/sqlx.rs`. -/
structure StmtBuilder where
  tbl : String

/-- Embedding of `sqlx::StmtBuilder::new`. -/
def StmtBuilder.new (tbl : String) : StmtBuilder := { tbl := tbl }

/-- Embedding of `sqlx::StmtBuilder::get_tbl`. -/
def StmtBuilder.get_tbl (sb : StmtBuilder) : String := sb.tbl

/-- Embedding of `sqlx::StmtBuilder::build_conds`. -/
def StmtBuilder.build_conds (_sb : StmtBuilder) (conds : List KV) : String :=
  if conds.isEmpty then ""
  else
    " WHERE " ++ String.intercalate " AND "
      (conds.map (fun kv => kv.key ++ " = " ++ kv.val))

/-- Embedding of `sqlx::StmtBuilder::build_insert_stmt`. -/
def StmtBuilder.build_insert_stmt (sb : StmtBuilder) (cols : List KV) : String :=
  if cols.isEmpty then ""
  else
    "INSERT INTO " ++ sb.tbl ++ " (" ++
      String.intercalate ", " (cols.map KV.key) ++
      ") VALUES (" ++
      String.intercalate ", " (cols.map KV.val) ++ ")"

/-- Embedding of `sqlx::StmtBuilder::build_query_stmt`. -/
def StmtBuilder.build_query_stmt (sb : StmtBuilder) (cols : List String)
    (conds : List KV) : String :=
  "SELECT " ++
    (if cols.isEmpty then "*" else String.intercalate ", " cols) ++
    " FROM " ++ sb.tbl ++ sb.build_conds conds

/-- Embedding of `sqlx::StmtBuilder::build_update_stmt`. -/
def StmtBuilder.build_update_stmt (sb : StmtBuilder) (cols : List KV)
    (conds : List KV) : String :=
  if cols.isEmpty then ""
  else
    "UPDATE " ++ sb.tbl ++ " SET " ++
      String.intercalate ", " (cols.map (fun kv => kv.key ++ " = " ++ kv.val)) ++
      sb.build_conds conds

/-- Embedding of `sqlx::StmtBuilder::build_delete_stmt`. -/
def StmtBuilder.build_delete_stmt (sb : StmtBuilder) (conds : List KV) : String :=
  "DELETE FROM " ++ sb.tbl ++ sb.build_conds conds

end Sqlx

/-- Conversion of a list of value texts through `convert_placeholder`,
threading the counter left to right: this is exactly the sequence of
`convert_placeholder` calls a statement-building call performs on its
value texts, in emitted order. -/
def convertVals (sb : StmtBuilder) (begin_idx : Int)
    (vals : List String) : List String × Int :=
  mapWithState (fun i v => sb.convert_placeholder i v) begin_idx vals

/-! Helper lemmas about the state-threading map and the placeholder
conversion. These decompose each statement builder into the escaped key
list and the converted value list. -/

lemma mapWithState_length {α β σ : Type} (f : σ → α → β × σ) :
    ∀ (l : List α) (s : σ), ((mapWithState f s l).1).length = l.length := by
  intro l
  induction l with
  | nil => intro s; rfl
  | cons a rest ih =>
      intro s
      simp [mapWithState, ih]

lemma mapWithState_append {α β σ : Type} (f : σ → α → β × σ) :
    ∀ (a b : List α) (s : σ),
      mapWithState f s (a ++ b) =
        ((mapWithState f s a).1 ++
           (mapWithState f (mapWithState f s a).2 b).1,
         (mapWithState f (mapWithState f s a).2 b).2) := by
  intro a
  induction a with
  | nil => intro b s; rfl
  | cons x rest ih =>
      intro b s
      simp [mapWithState, ih]

lemma convertVals_length (sb : StmtBuilder) (i : Int) (vals : List String) :
    ((convertVals sb i vals).1).length = vals.length :=
  mapWithState_length _ vals i

lemma convertVals_append (sb : StmtBuilder) (a b : List String) (i : Int) :
    convertVals sb i (a ++ b) =
      ((convertVals sb i a).1 ++
         (convertVals sb (convertVals sb i a).2 b).1,
       (convertVals sb (convertVals sb i a).2 b).2) :=
  mapWithState_append _ a b i

lemma conds_parts_eq (sb : StmtBuilder) :
    ∀ (l : List KV) (i : Int),
      mapWithState
        (fun j kv =>
          (kv.key ++ " = " ++ (sb.convert_placeholder j kv.val).1,
           (sb.convert_placeholder j kv.val).2)) i l
      = (List.zipWith (fun kv v => kv.key ++ " = " ++ v) l
           ((convertVals sb i (l.map KV.val)).1),
         (convertVals sb i (l.map KV.val)).2) := by
  intro l
  induction l with
  | nil => intro i; rfl
  | cons kv rest ih =>
      intro i
      simp only [mapWithState, convertVals, List.map_cons, List.zipWith_cons_cons]
      rw [ih]
      rfl

lemma set_parts_eq (sb : StmtBuilder) :
    ∀ (l : List KV) (i : Int),
      mapWithState
        (fun j kv =>
          (sb.escape_col kv.key ++ " = " ++ (sb.convert_placeholder j kv.val).1,
           (sb.convert_placeholder j kv.val).2)) i l
      = (List.zipWith (fun kv v => sb.escape_col kv.key ++ " = " ++ v) l
           ((convertVals sb i (l.map KV.val)).1),
         (convertVals sb i (l.map KV.val)).2) := by
  intro l
  induction l with
  | nil => intro i; rfl
  | cons kv rest ih =>
      intro i
      simp only [mapWithState, convertVals, List.map_cons, List.zipWith_cons_cons]
      rw [ih]
      rfl

lemma insert_pairs_eq (sb : StmtBuilder) :
    ∀ (l : List KV) (i : Int),
      mapWithState
        (fun j kv =>
          ((sb.escape_col kv.key, (sb.convert_placeholder j kv.val).1),
           (sb.convert_placeholder j kv.val).2)) i l
      = (List.zipWith (fun kv v => (sb.escape_col kv.key, v)) l
           ((convertVals sb i (l.map KV.val)).1),
         (convertVals sb i (l.map KV.val)).2) := by
  intro l
  induction l with
  | nil => intro i; rfl
  | cons kv rest ih =>
      intro i
      simp only [mapWithState, convertVals, List.map_cons, List.zipWith_cons_cons]
      rw [ih]
      rfl

lemma zipWith_pair_fst {α β γ : Type} (f : α → γ) :
    ∀ (l : List α) (vs : List β), vs.length = l.length →
      (List.zipWith (fun a v => (f a, v)) l vs).map Prod.fst = l.map f := by
  intro l
  induction l with
  | nil => intro vs _; simp
  | cons a rest ih =>
      intro vs hlen
      cases vs with
      | nil => simp at hlen
      | cons v vtl =>
          simp only [List.zipWith_cons_cons, List.map_cons]
          rw [ih vtl (by simpa using hlen)]

lemma zipWith_pair_snd {α β γ : Type} (f : α → γ) :
    ∀ (l : List α) (vs : List β), vs.length = l.length →
      (List.zipWith (fun a v => (f a, v)) l vs).map Prod.snd = vs := by
  intro l
  induction l with
  | nil => intro vs hlen; simp at hlen; simp [hlen]
  | cons a rest ih =>
      intro vs hlen
      cases vs with
      | nil => simp at hlen
      | cons v vtl =>
          simp only [List.zipWith_cons_cons, List.map_cons]
          rw [ih vtl (by simpa using hlen)]

lemma zipWith_key_map_val :
    ∀ (l : List KV),
      List.zipWith (fun kv v => kv.key ++ " = " ++ v) l (l.map KV.val)
        = l.map (fun kv => kv.key ++ " = " ++ kv.val) := by
  intro l
  induction l with
  | nil => rfl
  | cons kv rest ih =>
      simp only [List.map_cons, List.zipWith_cons_cons]
      rw [ih]

lemma convert_placeholder_not_pg (sb : StmtBuilder)
    (h : sb.typ = DbType.MySQL ∨ sb.typ = DbType.SQLite)
    (i : Int) (val : String) :
    sb.convert_placeholder i val = (val, i) := by
  unfold StmtBuilder.convert_placeholder
  rcases h with h | h <;> rw [h]

lemma convert_placeholder_pg_mark (sb : StmtBuilder)
    (h : sb.typ = DbType.PostgreSQL) (i : Int) :
    sb.convert_placeholder i PLACEHOLDER = ( "$" ++ toString i, i + 1) := by
  unfold StmtBuilder.convert_placeholder
  rw [h]
  simp

lemma convert_placeholder_pg_other (sb : StmtBuilder)
    (h : sb.typ = DbType.PostgreSQL) (i : Int) (val : String)
    (hv : val ≠ PLACEHOLDER) :
    sb.convert_placeholder i val = (val, i) := by
  unfold StmtBuilder.convert_placeholder
  rw [h]
  simp [hv]

lemma convertVals_not_pg (sb : StmtBuilder)
    (h : sb.typ = DbType.MySQL ∨ sb.typ = DbType.SQLite) :
    ∀ (vals : List String) (i : Int), convertVals sb i vals = (vals, i) := by
  intro vals
  induction vals with
  | nil => intro i; rfl
  | cons v vs ih =>
      intro i
      simp only [convertVals, mapWithState] at ih ⊢
      rw [convert_placeholder_not_pg sb h i v]
      simp only []
      rw [ih i]

lemma convertVals_pg_get (sb : StmtBuilder) (h : sb.typ = DbType.PostgreSQL) :
    ∀ (vals : List String) (i : Int) (n : Nat),
      vals[n]? = some PLACEHOLDER →
      ((convertVals sb i vals).1)[n]? =
        some ( "$" ++ toString (i + (((vals.take n).count PLACEHOLDER : Nat) : Int))) := by
  intro vals
  induction vals with
  | nil => intro i n hn; simp at hn
  | cons v vs ih =>
      intro i n hn
      cases n with
      | zero =>
          simp only [List.getElem?_cons_zero, Option.some_inj] at hn
          subst hn
          simp only [convertVals, mapWithState,
            convert_placeholder_pg_mark sb h i, List.getElem?_cons_zero,
            List.take_zero, List.count_nil]
          simp
      | succ m =>
          simp only [List.getElem?_cons_succ] at hn
          by_cases hv : v = PLACEHOLDER
          · subst hv
            have h2 := ih (i + 1) m hn
            simp only [convertVals, mapWithState,
              convert_placeholder_pg_mark sb h i, List.getElem?_cons_succ]
            simp only [convertVals] at h2
            rw [h2]
            have hc : ((PLACEHOLDER :: vs).take (m + 1)).count PLACEHOLDER
                = (vs.take m).count PLACEHOLDER + 1 := by
              simp [List.take_succ_cons, List.count_cons]
            rw [hc]
            have harith : i + 1 + (((vs.take m).count PLACEHOLDER : Nat) : Int)
                = i + (((vs.take m).count PLACEHOLDER + 1 : Nat) : Int) := by
              push_cast
              ring
            rw [harith]
          · have h2 := ih i m hn
            simp only [convertVals, mapWithState,
              convert_placeholder_pg_other sb h i v hv, List.getElem?_cons_succ]
            simp only [convertVals] at h2
            rw [h2]
            have hc : ((v :: vs).take (m + 1)).count PLACEHOLDER
                = (vs.take m).count PLACEHOLDER := by
              simp [List.take_succ_cons, List.count_cons, hv]
            rw [hc]

lemma build_conds_eq (sb : StmtBuilder) (i : Int) (conds : List KV) :
    sb.build_conds i conds =
      (if conds.isEmpty then ( "", i)
       else
         ( " WHERE " ++ String.intercalate " AND "
             (List.zipWith (fun kv v => kv.key ++ " = " ++ v) conds
               ((convertVals sb i (conds.map KV.val)).1)),
           (convertVals sb i (conds.map KV.val)).2)) := by
  unfold StmtBuilder.build_conds
  rw [conds_parts_eq sb conds i]

lemma build_conds_fst_eq (sb : StmtBuilder) (i : Int) (conds : List KV) :
    (sb.build_conds i conds).1 =
      (if conds.isEmpty then ""
       else
         " WHERE " ++ String.intercalate " AND "
           (List.zipWith (fun kv v => kv.key ++ " = " ++ v) conds
             ((convertVals sb i (conds.map KV.val)).1))) := by
  rw [build_conds_eq]
  by_cases hc : conds.isEmpty <;> simp [hc]

lemma build_insert_stmt_eq (sb : StmtBuilder) (cols : List KV) :
    sb.build_insert_stmt cols =
      (if cols.isEmpty then ""
       else
         "INSERT INTO " ++ sb.tbl ++ " (" ++
           String.intercalate ", " (cols.map (fun kv => sb.escape_col kv.key)) ++
           ") VALUES (" ++
           String.intercalate ", "
             ((convertVals sb PG_PLACEHOLDER_BEGIN_IDX (cols.map KV.val)).1) ++
           ")") := by
  unfold StmtBuilder.build_insert_stmt
  rw [insert_pairs_eq sb cols PG_PLACEHOLDER_BEGIN_IDX]
  have hlen : ((convertVals sb PG_PLACEHOLDER_BEGIN_IDX (cols.map KV.val)).1).length
      = cols.length := by
    rw [convertVals_length]
    simp
  rw [show (List.zipWith (fun kv v => (sb.escape_col kv.key, v)) cols
        ((convertVals sb PG_PLACEHOLDER_BEGIN_IDX (cols.map KV.val)).1),
      (convertVals sb PG_PLACEHOLDER_BEGIN_IDX (cols.map KV.val)).2).1
    = List.zipWith (fun kv v => (sb.escape_col kv.key, v)) cols
        ((convertVals sb PG_PLACEHOLDER_BEGIN_IDX (cols.map KV.val)).1) from rfl]
  rw [zipWith_pair_fst (fun kv => sb.escape_col kv.key) cols _ hlen,
      zipWith_pair_snd (fun kv => sb.escape_col kv.key) cols _ hlen]

lemma build_update_stmt_eq (sb : StmtBuilder) (cols conds : List KV) :
    sb.build_update_stmt cols conds =
      (if cols.isEmpty then ""
       else
         "UPDATE " ++ sb.tbl ++ " SET " ++
           String.intercalate ", "
             (List.zipWith (fun kv v => sb.escape_col kv.key ++ " = " ++ v) cols
               ((convertVals sb PG_PLACEHOLDER_BEGIN_IDX (cols.map KV.val)).1)) ++
           (sb.build_conds
             ((convertVals sb PG_PLACEHOLDER_BEGIN_IDX (cols.map KV.val)).2)
             conds).1) := by
  unfold StmtBuilder.build_update_stmt
  rw [set_parts_eq sb cols PG_PLACEHOLDER_BEGIN_IDX]

lemma build_query_stmt_eq (sb : StmtBuilder) (cols : List String)
    (conds : List KV) :
    sb.build_query_stmt cols conds =
      "SELECT " ++
        (if cols.isEmpty then "*"
         else String.intercalate ", " (cols.map (fun col => sb.escape_col col))) ++
        " FROM " ++ sb.tbl ++
        (if conds.isEmpty then ""
         else
           " WHERE " ++ String.intercalate " AND "
             (List.zipWith (fun kv v => kv.key ++ " = " ++ v) conds
               ((convertVals sb PG_PLACEHOLDER_BEGIN_IDX (conds.map KV.val)).1))) := by
  unfold StmtBuilder.build_query_stmt
  rw [build_conds_fst_eq]

lemma build_delete_stmt_eq (sb : StmtBuilder) (conds : List KV) :
    sb.build_delete_stmt conds =
      "DELETE FROM " ++ sb.tbl ++
        (if conds.isEmpty then ""
         else
           " WHERE " ++ String.intercalate " AND "
             (List.zipWith (fun kv v => kv.key ++ " = " ++ v) conds
               ((convertVals sb PG_PLACEHOLDER_BEGIN_IDX (conds.map KV.val)).1))) := by
  unfold StmtBuilder.build_delete_stmt
  rw [build_conds_fst_eq]

lemma string_append_assoc (a b c : String) : a ++ b ++ c = a ++ (b ++ c) := by
  apply String.ext
  simp [String.data_append]

lemma isEmpty_false_of_ne_nil {α : Type} {l : List α} (h : l ≠ []) :
    l.isEmpty = false := by
  cases l with
  | nil => exact absurd rfl h
  | cons a tl => rfl

/-! Claim theorems. -/

/-- C1: for a Builder constructed with table name my_tbl and dialect
PostgreSQL, build_update_stmt with columns
[(username, ?), (nickname, ?), (update_at, NOW())] and conditions
[(age, ?), (gender, \x27male\x27)] returns exactly the string
UPDATE my_tbl SET "username" = $1, "nickname" = $2, "update_at" = NOW()
WHERE age = $3 AND gender = \x27male\x27. -/
theorem claim_C1 :
    (StmtBuilder.new "my_tbl" DbType.PostgreSQL).build_update_stmt
      [⟨ "username", PLACEHOLDER⟩, ⟨ "nickname", PLACEHOLDER⟩,
       ⟨ "update_at", "NOW()"⟩]
      [⟨ "age", PLACEHOLDER⟩, ⟨ "gender", "\x27male\x27"⟩] =
    "UPDATE my_tbl SET \"username\" = $1, \"nickname\" = $2, \"update_at\" = NOW() WHERE age = $3 AND gender = \x27male\x27" := by
  rfl

/-- C3: convert_placeholder, given a running counter and a value text,
returns the text unchanged with the counter untouched for MySQL and
SQLite; for PostgreSQL it returns the dollar sign followed by the current
counter and increments the counter by one exactly when the text equals
the marker, and otherwise returns the text unchanged with the counter
untouched. -/
theorem claim_C3 (sb : StmtBuilder) (i : Int) (val : String) :
    ((sb.typ = DbType.MySQL ∨ sb.typ = DbType.SQLite) →
      sb.convert_placeholder i val = (val, i))
    ∧ (sb.typ = DbType.PostgreSQL →
        (val = PLACEHOLDER →
          sb.convert_placeholder i val = ( "$" ++ toString i, i + 1))
        ∧ (val ≠ PLACEHOLDER → sb.convert_placeholder i val = (val, i))) := by
  refine ⟨fun h => convert_placeholder_not_pg sb h i val,
    fun h => ⟨fun hv => ?_, fun hv => convert_placeholder_pg_other sb h i val hv⟩⟩
  subst hv
  exact convert_placeholder_pg_mark sb h i

/-- C3 witness: concrete evaluations of the yellow cases of claim_C3. -/
theorem claim_C3_witness :
    (StmtBuilder.new "t" DbType.PostgreSQL).convert_placeholder 1 PLACEHOLDER
      = ( "$1", 2)
    ∧ (StmtBuilder.new "t" DbType.MySQL).convert_placeholder 1 PLACEHOLDER
      = (PLACEHOLDER, 1)
    ∧ (StmtBuilder.new "t" DbType.PostgreSQL).convert_placeholder 5 "NOW()"
      = ( "NOW()", 5) := by
  refine ⟨?_, ?_, ?_⟩
  · exact ((claim_C3 (StmtBuilder.new "t" DbType.PostgreSQL) 1 PLACEHOLDER).2
      rfl).1 rfl
  · exact (claim_C3 (StmtBuilder.new "t" DbType.MySQL) 1 PLACEHOLDER).1
      (Or.inl rfl)
  · exact ((claim_C3 (StmtBuilder.new "t" DbType.PostgreSQL) 5 "NOW()").2
      rfl).2 (by decide)

/-- C4: build_conds returns the empty string (and the untouched counter)
when the condition list is empty, and otherwise the WHERE keyword
followed by key = translated-value pairs joined with AND in input order,
threading the placeholder counter through the values left to right;
condition keys are emitted verbatim for every dialect. -/
theorem claim_C4 (sb : StmtBuilder) (i : Int) (conds : List KV) :
    sb.build_conds i conds =
      (if conds.isEmpty then ( "", i)
       else
         ( " WHERE " ++ String.intercalate " AND "
             (List.zipWith (fun kv v => kv.key ++ " = " ++ v) conds
               ((convertVals sb i (conds.map KV.val)).1)),
           (convertVals sb i (conds.map KV.val)).2)) :=
  build_conds_eq sb i conds

/-- C5: escape_col returns the wildcard unchanged for every dialect and
otherwise wraps the column name in backticks for MySQL and in double
quotes for PostgreSQL and SQLite. -/
theorem claim_C5 (sb : StmtBuilder) (col : String) :
    (col = "*" → sb.escape_col col = col)
    ∧ (col ≠ "*" →
        (sb.typ = DbType.MySQL → sb.escape_col col = "`" ++ col ++ "`")
        ∧ ((sb.typ = DbType.PostgreSQL ∨ sb.typ = DbType.SQLite) →
            sb.escape_col col = "\"" ++ col ++ "\"")) := by
  constructor
  · intro h
    simp [StmtBuilder.escape_col, h]
  · intro h
    constructor
    · intro ht
      simp [StmtBuilder.escape_col, h, ht]
    · intro ht
      rcases ht with ht | ht <;> simp [StmtBuilder.escape_col, h, ht]

/-- C5 witness: concrete evaluations of claim_C5. -/
theorem claim_C5_witness :
    (StmtBuilder.new "t" DbType.MySQL).escape_col "name" = "`name`"
    ∧ (StmtBuilder.new "t" DbType.PostgreSQL).escape_col "name" = "\"name\""
    ∧ (StmtBuilder.new "t" DbType.SQLite).escape_col "name" = "\"name\""
    ∧ (StmtBuilder.new "t" DbType.PostgreSQL).escape_col "*" = "*" := by
  refine ⟨?_, ?_, ?_, ?_⟩
  · exact ((claim_C5 (StmtBuilder.new "t" DbType.MySQL) "name").2
      (by decide)).1 rfl
  · exact ((claim_C5 (StmtBuilder.new "t" DbType.PostgreSQL) "name").2
      (by decide)).2 (Or.inl rfl)
  · exact ((claim_C5 (StmtBuilder.new "t" DbType.SQLite) "name").2
      (by decide)).2 (Or.inr rfl)
  · exact (claim_C5 (StmtBuilder.new "t" DbType.PostgreSQL) "*").1 rfl

/-- C8: for every dialect and every condition list, build_insert_stmt on
an empty column list returns exactly the empty string, and
build_update_stmt on an empty column list returns exactly the empty
string. -/
theorem claim_C8 (sb : StmtBuilder) (conds : List KV) :
    sb.build_insert_stmt [] = "" ∧ sb.build_update_stmt [] conds = "" :=
  ⟨rfl, rfl⟩

/-- C6: for every non-empty column list and every dialect, the output of
build_insert_stmt starts with INSERT INTO table and an opening
parenthesis, and the number of escaped column names equals the number of
values, with the i-th value positionally matching the i-th column: the
statement is the escaped key list and the converted value list of the
same column list, in order. -/
theorem claim_C6 (sb : StmtBuilder) (cols : List KV) (h : cols ≠ []) :
    (∃ rest,
      sb.build_insert_stmt cols = "INSERT INTO " ++ sb.tbl ++ " (" ++ rest)
    ∧ (cols.map (fun kv => sb.escape_col kv.key)).length
        = ((convertVals sb PG_PLACEHOLDER_BEGIN_IDX (cols.map KV.val)).1).length
    ∧ sb.build_insert_stmt cols =
        "INSERT INTO " ++ sb.tbl ++ " (" ++
          String.intercalate ", " (cols.map (fun kv => sb.escape_col kv.key)) ++
          ") VALUES (" ++
          String.intercalate ", "
            ((convertVals sb PG_PLACEHOLDER_BEGIN_IDX (cols.map KV.val)).1) ++
          ")" := by
  have hne : cols.isEmpty = false := isEmpty_false_of_ne_nil h
  have he := build_insert_stmt_eq sb cols
  rw [hne] at he
  simp only [Bool.false_eq_true, if_false] at he
  refine ⟨?_, ?_, he⟩
  · refine ⟨String.intercalate ", " (cols.map (fun kv => sb.escape_col kv.key)) ++
      (") VALUES (" ++
        (String.intercalate ", "
          ((convertVals sb PG_PLACEHOLDER_BEGIN_IDX (cols.map KV.val)).1) ++
         ")")), ?_⟩
    rw [he]
    simp only [string_append_assoc]
  · rw [convertVals_length]
    simp

/-- C6 witness: the MySQL doc example of build_insert_stmt, obtained from
claim_C6 at a concrete input. -/
theorem claim_C6_witness :
    (StmtBuilder.new "my_tbl" DbType.MySQL).build_insert_stmt
      [⟨ "username", PLACEHOLDER⟩, ⟨ "nickname", "\x27foo\x27"⟩,
       ⟨ "create_at", "NOW()"⟩] =
    "INSERT INTO my_tbl (`username`, `nickname`, `create_at`) VALUES (?, \x27foo\x27, NOW())" := by
  exact (claim_C6 (StmtBuilder.new "my_tbl" DbType.MySQL)
    [⟨ "username", PLACEHOLDER⟩, ⟨ "nickname", "\x27foo\x27"⟩,
     ⟨ "create_at", "NOW()"⟩] (List.cons_ne_nil _ _)).2.2

/-- C7: build_query_stmt emits SELECT cols FROM table and then the
condition clause, where the column list is the wildcard when the selected
column list is empty and otherwise the escaped columns joined with
commas, and the condition clause is assembled with the placeholder
counter starting fresh at 1. -/
theorem claim_C7 (sb : StmtBuilder) (cols : List String) (conds : List KV) :
    sb.build_query_stmt cols conds =
      "SELECT " ++
        (if cols.isEmpty then "*"
         else String.intercalate ", " (cols.map (fun col => sb.escape_col col))) ++
        " FROM " ++ sb.tbl ++
        (if conds.isEmpty then ""
         else
           " WHERE " ++ String.intercalate " AND "
             (List.zipWith (fun kv v => kv.key ++ " = " ++ v) conds
               ((convertVals sb 1 (conds.map KV.val)).1))) :=
  build_query_stmt_eq sb cols conds

/-- C9: build_delete_stmt always succeeds with no empty-input
short-circuit: it is DELETE FROM table followed by the condition clause
built with a fresh counter starting at 1; with an empty condition list it
is exactly DELETE FROM table; the SQLite scenario of the spec holds. -/
theorem claim_C9 (sb : StmtBuilder) (conds : List KV) :
    sb.build_delete_stmt conds =
      "DELETE FROM " ++ sb.tbl ++
        (if conds.isEmpty then ""
         else
           " WHERE " ++ String.intercalate " AND "
             (List.zipWith (fun kv v => kv.key ++ " = " ++ v) conds
               ((convertVals sb 1 (conds.map KV.val)).1)))
    ∧ sb.build_delete_stmt [] = "DELETE FROM " ++ sb.tbl
    ∧ (StmtBuilder.new "my_tbl" DbType.SQLite).build_delete_stmt
        [⟨ "username", PLACEHOLDER⟩, ⟨ "age", "25"⟩] =
        "DELETE FROM my_tbl WHERE username = ? AND age = 25" := by
  refine ⟨build_delete_stmt_eq sb conds, ?_, by rfl⟩
  rw [build_delete_stmt_eq]
  simp [String.append_empty]

lemma sqlx_delete_eq_delete (tbl : String) (typ : DbType)
    (h : typ = DbType.MySQL ∨ typ = DbType.SQLite) (conds : List KV) :
    (Sqlx.StmtBuilder.new tbl).build_delete_stmt
        (conds.map (fun kv => Sqlx.KV.mk kv.key kv.val))
      = (StmtBuilder.new tbl typ).build_delete_stmt conds := by
  have hsb : (StmtBuilder.new tbl typ).typ = DbType.MySQL ∨
      (StmtBuilder.new tbl typ).typ = DbType.SQLite := h
  rw [build_delete_stmt_eq,
      convertVals_not_pg (StmtBuilder.new tbl typ) hsb (conds.map KV.val)
        PG_PLACEHOLDER_BEGIN_IDX]
  dsimp only
  rw [zipWith_key_map_val conds]
  cases conds with
  | nil => rfl
  | cons c cs =>
      simp only [Sqlx.StmtBuilder.build_delete_stmt, Sqlx.StmtBuilder.build_conds,
        Sqlx.StmtBuilder.new, StmtBuilder.new, List.map_cons, List.isEmpty_cons,
        List.map_map]
      rfl

/-- C10: for every table name and condition list, the dialect-agnostic
sqlx delete builder produces the same string as the dialect-aware builder
configured with the MySQL dialect, and likewise with the SQLite dialect:
condition keys are never escaped and non-PostgreSQL placeholder
translation is the identity on value text. -/
theorem claim_C10 (tbl : String) (conds : List KV) :
    (Sqlx.StmtBuilder.new tbl).build_delete_stmt
        (conds.map (fun kv => Sqlx.KV.mk kv.key kv.val))
      = (StmtBuilder.new tbl DbType.MySQL).build_delete_stmt conds
    ∧ (Sqlx.StmtBuilder.new tbl).build_delete_stmt
        (conds.map (fun kv => Sqlx.KV.mk kv.key kv.val))
      = (StmtBuilder.new tbl DbType.SQLite).build_delete_stmt conds :=
  ⟨sqlx_delete_eq_delete tbl DbType.MySQL (Or.inl rfl) conds,
   sqlx_delete_eq_delete tbl DbType.SQLite (Or.inr rfl) conds⟩

/-- C2: within any single statement-building call, the value texts are
translated by threading one counter left to right in emitted order; for
PostgreSQL the Nth occurrence of the marker among the value texts of the
SET/VALUES clause followed by the WHERE clause (position n, preceded by
count-many markers, hence occurrence number count + 1) becomes the dollar
sign followed by that occurrence number, starting at 1; for MySQL and
SQLite every value text is left unchanged. The conjuncts tie this to the
four builders: the threaded conversion splits as SET/VALUES first and
WHERE continuing the same counter, and build_update_stmt,
build_insert_stmt, build_query_stmt and build_delete_stmt each emit
exactly these converted value texts in order. -/
theorem claim_C2 (sb : StmtBuilder) (cols conds : List KV)
    (qcols : List String) :
    ((sb.typ = DbType.PostgreSQL →
        ∀ n : Nat,
          (cols.map KV.val ++ conds.map KV.val)[n]? = some PLACEHOLDER →
          ((convertVals sb 1 (cols.map KV.val ++ conds.map KV.val)).1)[n]? =
            some ( "$" ++ toString
              (1 + ((((cols.map KV.val ++ conds.map KV.val).take n).count
                PLACEHOLDER : Nat) : Int))))
     ∧ ((sb.typ = DbType.MySQL ∨ sb.typ = DbType.SQLite) →
         (convertVals sb 1 (cols.map KV.val ++ conds.map KV.val)).1
           = cols.map KV.val ++ conds.map KV.val))
    ∧ convertVals sb 1 (cols.map KV.val ++ conds.map KV.val)
        = ((convertVals sb 1 (cols.map KV.val)).1 ++
             (convertVals sb ((convertVals sb 1 (cols.map KV.val)).2)
               (conds.map KV.val)).1,
           (convertVals sb ((convertVals sb 1 (cols.map KV.val)).2)
             (conds.map KV.val)).2)
    ∧ (cols ≠ [] →
        sb.build_update_stmt cols conds =
          "UPDATE " ++ sb.tbl ++ " SET " ++
            String.intercalate ", "
              (List.zipWith (fun kv v => sb.escape_col kv.key ++ " = " ++ v)
                cols ((convertVals sb 1 (cols.map KV.val)).1)) ++
            (if conds.isEmpty then ""
             else
               " WHERE " ++ String.intercalate " AND "
                 (List.zipWith (fun kv v => kv.key ++ " = " ++ v) conds
                   ((convertVals sb ((convertVals sb 1 (cols.map KV.val)).2)
                      (conds.map KV.val)).1))))
    ∧ (cols ≠ [] →
        sb.build_insert_stmt cols =
          "INSERT INTO " ++ sb.tbl ++ " (" ++
            String.intercalate ", "
              (cols.map (fun kv => sb.escape_col kv.key)) ++
            ") VALUES (" ++
            String.intercalate ", " ((convertVals sb 1 (cols.map KV.val)).1) ++
            ")")
    ∧ sb.build_query_stmt qcols conds =
        "SELECT " ++
          (if qcols.isEmpty then "*"
           else
             String.intercalate ", "
               (qcols.map (fun col => sb.escape_col col))) ++
          " FROM " ++ sb.tbl ++
          (if conds.isEmpty then ""
           else
             " WHERE " ++ String.intercalate " AND "
               (List.zipWith (fun kv v => kv.key ++ " = " ++ v) conds
                 ((convertVals sb 1 (conds.map KV.val)).1)))
    ∧ sb.build_delete_stmt conds =
        "DELETE FROM " ++ sb.tbl ++
          (if conds.isEmpty then ""
           else
             " WHERE " ++ String.intercalate " AND "
               (List.zipWith (fun kv v => kv.key ++ " = " ++ v) conds
                 ((convertVals sb 1 (conds.map KV.val)).1))) := by
  refine ⟨⟨fun h n hn => convertVals_pg_get sb h _ 1 n hn,
      fun h => by rw [convertVals_not_pg sb h]⟩,
    convertVals_append sb (cols.map KV.val) (conds.map KV.val) 1,
    fun h => ?_, fun h => ?_,
    build_query_stmt_eq sb qcols conds,
    build_delete_stmt_eq sb conds⟩
  · have hne : cols.isEmpty = false := isEmpty_false_of_ne_nil h
    rw [build_update_stmt_eq, build_conds_fst_eq, hne]
    simp only [Bool.false_eq_true, if_false]
    rfl
  · have hne : cols.isEmpty = false := isEmpty_false_of_ne_nil h
    rw [build_insert_stmt_eq, hne]
    simp only [Bool.false_eq_true, if_false]
    rfl

/-- C2 witness: the PostgreSQL update scenario, obtained from claim_C2 at
a concrete input: the fourth value text (the third marker) becomes the
third positional placeholder, and the full update statement emits the
converted value texts. -/
theorem claim_C2_witness :
    ((convertVals (StmtBuilder.new "my_tbl" DbType.PostgreSQL) 1
        [ "?", "?", "NOW()", "?", "\x27male\x27"]).1)[3]? = some "$3"
    ∧ (convertVals (StmtBuilder.new "my_tbl" DbType.MySQL) 1
        [ "?", "?", "NOW()", "?", "\x27male\x27"]).1
        = [ "?", "?", "NOW()", "?", "\x27male\x27"] := by
  constructor
  · exact (claim_C2 (StmtBuilder.new "my_tbl" DbType.PostgreSQL)
      [⟨ "username", "?"⟩, ⟨ "nickname", "?"⟩, ⟨ "update_at", "NOW()"⟩]
      [⟨ "age", "?"⟩, ⟨ "gender", "\x27male\x27"⟩] []).1.1 rfl 3 rfl
  · exact (claim_C2 (StmtBuilder.new "my_tbl" DbType.MySQL)
      [⟨ "username", "?"⟩, ⟨ "nickname", "?"⟩, ⟨ "update_at", "NOW()"⟩]
      [⟨ "age", "?"⟩, ⟨ "gender", "\x27male\x27"⟩] []).1.2 (Or.inl rfl)
